import Mathlib

/-!
Shallow embedding of the Interactive Evolution Simulation engine.

Numbers are modelled as rationals.  JavaScript's `Math.random()` draws are
made explicit: every random decision of a source function becomes an input
parameter (a rational assumed to lie in `[0,1)` where it matters), so that
universally quantified theorems range over all possible draws.

JavaScript division by zero produces `NaN`/`Infinity`; in the one place the
engine can divide by zero (`survivalRate` in `analyzeGeneration`) the result
is modelled as `Option ℚ` with `none` standing for the non-numeric result.
-/

/-- Last `n` elements of a list, mirroring JavaScript `slice(-n)`. -/
def lastN (n : ℕ) (xs : List ℚ) : List ℚ :=
  xs.drop (xs.length - n)

/-- JavaScript division: `none` models the `NaN`/`Infinity` produced when the
denominator is zero. -/
def jsDiv (a b : ℚ) : Option ℚ :=
  if b = 0 then none else some (a / b)

/-! ## Genome (SimulationEngine.js variant under `src/unnamed/part_002`)

This variant's genome has four functional genes.  `Genome.mutate` clamps each
mutated gene only from below (`Math.max(min, value + change)`). -/

/-- Functional genes of the four-trait genome variant. -/
structure Genes4 where
  speed : ℚ
  vision : ℚ
  size : ℚ
  efficiency : ℚ
  deriving Repr, DecidableEq

/-- Cosmetic hue/saturation/lightness triple. -/
structure Color where
  h : ℚ
  s : ℚ
  l : ℚ
  deriving Repr, DecidableEq

/-- Four-trait genome: functional genes plus cosmetic color. -/
structure Genome4 where
  genes : Genes4
  color : Color
  deriving Repr, DecidableEq

/-- The two uniform draws consumed by one gene's mutation step: `test`
decides whether the mutation branch fires, `delta` drives the change. -/
structure GenePick where
  test : ℚ
  delta : ℚ
  deriving Repr, DecidableEq

/-- The draws consumed by one `Genome.mutate` call (one pair per gene, plus
the color-hue pair). -/
structure MutatePicks where
  speed : GenePick
  vision : GenePick
  size : GenePick
  efficiency : GenePick
  colorH : GenePick
  deriving Repr, DecidableEq

/-- The inner `mutate` helper of `Genome.mutate` in `part_002`:
`if (Math.random() < mutationRate) return Math.max(min, value + (Math.random() - 0.5) * range * 0.3)`.
Note: only the lower bound `lo` is enforced. -/
def mutateGene (rate value range lo : ℚ) (d : GenePick) : ℚ :=
  if d.test < rate then max lo (value + (d.delta - 1/2) * range * (3/10)) else value

/-- JavaScript remainder `a % n` (sign of the dividend, truncated quotient). -/
def jsRem (a n : ℚ) : ℚ :=
  a - n * (Rat.floor (a / n) + if a / n < 0 ∧ Rat.floor (a / n) < a / n then 1 else 0)

/-- `Genome.mutate(mutationRate)` from `part_002`: per-gene mutation with the
fixed ranges and minimums `(5, 0.5)`, `(100, 30)`, `(15, 3)`, `(0.5, 0.3)`,
plus the cosmetic hue nudge. -/
def Genome4.mutate (g : Genome4) (mutationRate : ℚ) (d : MutatePicks) : Genome4 :=
  { genes :=
      { speed := mutateGene mutationRate g.genes.speed 5 (1/2) d.speed
        vision := mutateGene mutationRate g.genes.vision 100 30 d.vision
        size := mutateGene mutationRate g.genes.size 15 3 d.size
        efficiency := mutateGene mutationRate g.genes.efficiency (1/2) (3/10) d.efficiency }
    color :=
      if d.colorH.test < mutationRate then
        { g.color with h := jsRem (g.color.h + (d.colorH.delta - 1/2) * 60) 360 }
      else g.color }

/-- Per-gene coin flips of `Genome.crossover` (`Math.random() < 0.5` selects
parent 1's gene). -/
structure CrossPicks where
  speed : Bool
  vision : Bool
  size : Bool
  efficiency : Bool
  deriving Repr, DecidableEq

/-- `Genome.crossover(parent1, parent2)` from `part_002`: uniform gene-level
crossover (each gene copied from one parent), colors arithmetic-averaged.
The random genes of the freshly constructed child are all overwritten. -/
def Genome4.crossover (p1 p2 : Genome4) (b : CrossPicks) : Genome4 :=
  { genes :=
      { speed := if b.speed then p1.genes.speed else p2.genes.speed
        vision := if b.vision then p1.genes.vision else p2.genes.vision
        size := if b.size then p1.genes.size else p2.genes.size
        efficiency := if b.efficiency then p1.genes.efficiency else p2.genes.efficiency }
    color :=
      { h := (p1.color.h + p2.color.h) / 2
        s := (p1.color.s + p2.color.s) / 2
        l := (p1.color.l + p2.color.l) / 2 } }

/-! ## EvolutionIntelligence state -/

/-- `adaptiveWeights`: per-trait multiplier state of `EvolutionIntelligence`. -/
structure AdaptiveWeights where
  speed : ℚ
  vision : ℚ
  size : ℚ
  efficiency : ℚ
  deriving Repr, DecidableEq

/-- Constructor value of `adaptiveWeights` (all `1.0`). -/
def initialAdaptiveWeights : AdaptiveWeights :=
  { speed := 1, vision := 1, size := 1, efficiency := 1 }

/-- `environmentalPressures` state of `EvolutionIntelligence`. -/
structure Pressures where
  predation : ℚ
  starvation : ℚ
  competition : ℚ
  instability : ℚ
  deriving Repr, DecidableEq

/-- Constructor value of `environmentalPressures` (all `0`). -/
def initialPressures : Pressures :=
  { predation := 0, starvation := 0, competition := 0, instability := 0 }

/-- `EvolutionIntelligence.intelligentMutation(genome, mutationRate)` from
`part_000`: same mechanics as `Genome.mutate` but each gene's firing
probability is `mutationRate * adaptiveWeights[trait]`.  As in `part_002`,
only the lower bound is enforced (`Math.max(min, value + change)`). -/
def intelligentMutation (w : AdaptiveWeights) (g : Genome4) (mutationRate : ℚ)
    (d : MutatePicks) : Genome4 :=
  { genes :=
      { speed := mutateGene (mutationRate * w.speed) g.genes.speed 5 (1/2) d.speed
        vision := mutateGene (mutationRate * w.vision) g.genes.vision 100 30 d.vision
        size := mutateGene (mutationRate * w.size) g.genes.size 15 3 d.size
        efficiency :=
          mutateGene (mutationRate * w.efficiency) g.genes.efficiency (1/2) (3/10) d.efficiency }
    color :=
      if d.colorH.test < mutationRate then
        { g.color with h := jsRem (g.color.h + (d.colorH.delta - 1/2) * 60) 360 }
      else g.color }

/-! ## Genome (full variant in `src/src/SimulationEngine.js`, 7 traits)

This variant scales the mutation rate by `(2 - mutationStability)` and clamps
each gene between an explicit minimum and maximum. -/

/-- Genes of the seven-trait genome variant. -/
structure Genes7 where
  speed : ℚ
  vision : ℚ
  size : ℚ
  efficiency : ℚ
  aggression : ℚ
  dietType : ℚ
  mutationStability : ℚ
  deriving Repr, DecidableEq

/-- `effectiveMutationRate = mutationRate * (2 - this.genes.mutationStability)`
from `SimulationEngine.js` `Genome.mutate`. -/
def effectiveMutationRate (mutationRate stability : ℚ) : ℚ :=
  mutationRate * (2 - stability)

/-- The inner `mutate` helper of `SimulationEngine.js` `Genome.mutate`:
fires when the draw is below the effective rate and clamps to `[lo, hi]`
(`Math.max(min, Math.min(max, value + change))`). -/
def mutateGeneClamped (effRate value range lo hi : ℚ) (d : GenePick) : ℚ :=
  if d.test < effRate then max lo (min hi (value + (d.delta - 1/2) * range * (3/10)))
  else value

/-- Draws consumed by one seven-trait `Genome.mutate` call. -/
structure MutatePicks7 where
  speed : GenePick
  vision : GenePick
  size : GenePick
  efficiency : GenePick
  aggression : GenePick
  dietType : GenePick
  mutationStability : GenePick
  deriving Repr, DecidableEq

/-- `Genome.mutate(mutationRate)` from `SimulationEngine.js` (gene part; the
cosmetic hue nudge does not touch `genes`): each gene fires with probability
`mutationRate * (2 - mutationStability)` and is clamped to its domain
(speed `[0.5,10]`, vision `[30,200]`, size `[3,30]`, efficiency `[0.3,1]`,
aggression `[0,10]`, dietType `[0,1]`, mutationStability `[0.3,1]`). -/
def Genes7.mutate (g : Genes7) (mutationRate : ℚ) (d : MutatePicks7) : Genes7 :=
  let effRate := effectiveMutationRate mutationRate g.mutationStability
  { speed := mutateGeneClamped effRate g.speed 5 (1/2) 10 d.speed
    vision := mutateGeneClamped effRate g.vision 100 30 200 d.vision
    size := mutateGeneClamped effRate g.size 15 3 30 d.size
    efficiency := mutateGeneClamped effRate g.efficiency (1/2) (3/10) 1 d.efficiency
    aggression := mutateGeneClamped effRate g.aggression 10 0 10 d.aggression
    dietType := mutateGeneClamped effRate g.dietType 1 0 1 d.dietType
    mutationStability :=
      mutateGeneClamped effRate g.mutationStability (1/2) (3/10) 1 d.mutationStability }

/-! ## analyzeGeneration (`src/unnamed/part_000`) -/

/-- One organism as read by the generation-boundary analyses. -/
structure OrgRecord where
  alive : Bool
  fitness : ℚ
  energy : ℚ
  age : ℚ
  foodCollected : ℚ
  genes : Genes4
  deriving Repr, DecidableEq

/-- `EvolutionIntelligence.calculateAverage(array, accessor)`: returns `0` on
an empty array, otherwise the mean (accessor applied at call sites). -/
def calculateAverage (xs : List ℚ) : ℚ :=
  if xs.length = 0 then 0 else xs.sum / xs.length

/-- Result record of `compareTraitSuccess`. -/
structure TraitDist where
  survivorAvg : ℚ
  casualtyAvg : ℚ
  advantage : ℚ
  correlation : ℚ
  deriving Repr, DecidableEq

/-- `EvolutionIntelligence.compareTraitSuccess(survivors, casualties, trait)`:
guarded means (0 on empty groups), and the correlation denominator
`(survivorAvg + casualtyAvg || 1)` falls back to `1` when the sum is `0`. -/
def compareTraitSuccess (survivors casualties : List OrgRecord) (trait : Genes4 → ℚ) :
    TraitDist :=
  let survivorAvg :=
    if survivors.length > 0 then
      (survivors.map (fun o => trait o.genes)).sum / survivors.length
    else 0
  let casualtyAvg :=
    if casualties.length > 0 then
      (casualties.map (fun o => trait o.genes)).sum / casualties.length
    else 0
  let advantage := survivorAvg - casualtyAvg
  { survivorAvg := survivorAvg
    casualtyAvg := casualtyAvg
    advantage := advantage
    correlation :=
      advantage / (if survivorAvg + casualtyAvg = 0 then 1 else survivorAvg + casualtyAvg) }

/-- The four per-trait comparison records of `analyzeTraitDistributions`. -/
structure TraitDistributions where
  speed : TraitDist
  vision : TraitDist
  size : TraitDist
  efficiency : TraitDist
  deriving Repr, DecidableEq

/-- `EvolutionIntelligence.analyzeTraitDistributions(survivors, casualties)`. -/
def analyzeTraitDistributions (survivors casualties : List OrgRecord) : TraitDistributions :=
  { speed := compareTraitSuccess survivors casualties Genes4.speed
    vision := compareTraitSuccess survivors casualties Genes4.vision
    size := compareTraitSuccess survivors casualties Genes4.size
    efficiency := compareTraitSuccess survivors casualties Genes4.efficiency }

/-- Death-cause tallies of `analyzeDeathCauses`. -/
structure DeathCauses where
  starvation : ℕ
  exhaustion : ℕ
  inefficiency : ℕ
  unknown : ℕ
  deriving Repr, DecidableEq

/-- `EvolutionIntelligence.analyzeDeathCauses(casualties)`: starvation if
`energy ≤ 0` and `foodCollected < 3`, exhaustion if `energy ≤ 0` otherwise,
inefficiency if `efficiency < 0.5`, else unknown. -/
def analyzeDeathCauses (casualties : List OrgRecord) : DeathCauses :=
  casualties.foldl
    (fun c o =>
      if o.energy ≤ 0 then
        if o.foodCollected < 3 then { c with starvation := c.starvation + 1 }
        else { c with exhaustion := c.exhaustion + 1 }
      else if o.genes.efficiency < 1/2 then { c with inefficiency := c.inefficiency + 1 }
      else { c with unknown := c.unknown + 1 })
    { starvation := 0, exhaustion := 0, inefficiency := 0, unknown := 0 }

/-- `EvolutionIntelligence.calculateResourceEfficiency(population, environment)`:
`0` on an empty population, else `(totalFood * 20 + totalEnergy) / length`. -/
def calculateResourceEfficiency (population : List OrgRecord) : ℚ :=
  if population.length = 0 then 0
  else ((population.map (·.foodCollected)).sum * 20 + (population.map (·.energy)).sum) /
    population.length

/-- The statistics record built by `analyzeGeneration`.  `survivalRate` is
`Option ℚ` because `alive.length / population.length` is JavaScript `0/0`
(`NaN`) on an empty population. -/
structure GenStats where
  survivalRate : Option ℚ
  avgFitness : ℚ
  avgEnergy : ℚ
  avgAge : ℚ
  traitDistributions : TraitDistributions
  deathCauses : DeathCauses
  resourceEfficiency : ℚ
  deriving Repr, DecidableEq

/-- `EvolutionIntelligence.analyzeGeneration(population, environment)`: the
statistics part (the pressure/weight state updates it triggers are modelled
separately below). -/
def analyzeGeneration (population : List OrgRecord) : GenStats :=
  let alive := population.filter (·.alive)
  let dead := population.filter (fun o => !o.alive)
  { survivalRate := jsDiv alive.length population.length
    avgFitness := calculateAverage (alive.map (·.fitness))
    avgEnergy := calculateAverage (alive.map (·.energy))
    avgAge := calculateAverage (alive.map (·.age))
    traitDistributions := analyzeTraitDistributions alive dead
    deathCauses := analyzeDeathCauses dead
    resourceEfficiency := calculateResourceEfficiency alive }

/-! ## updateTraitWeights and the weight-touching events -/

/-- One trait's step of `updateTraitWeights`: `+0.05` capped at `2.0` when the
correlation exceeds `0.1`, `-0.05` floored at `0.5` when below `-0.1`, else
unchanged. -/
def stepWeight (w correlation : ℚ) : ℚ :=
  if correlation > 1/10 then min 2 (w + 1/20)
  else if correlation < -(1/10) then max (1/2) (w - 1/20)
  else w

/-- One trait's FIFO step of `updateTraitWeights`: push the correlation and
drop the oldest sample past 20. -/
def pushSuccessRate (xs : List ℚ) (correlation : ℚ) : List ℚ :=
  let ys := xs ++ [correlation]
  if ys.length > 20 then ys.drop 1 else ys

/-- Per-trait rolling correlation samples (`traitSuccessRates`). -/
structure TraitRates where
  speed : List ℚ
  vision : List ℚ
  size : List ℚ
  efficiency : List ℚ
  deriving Repr, DecidableEq

/-- `EvolutionIntelligence.updateTraitWeights(stats)`: nudges each adaptive
weight by the trait's survival correlation and records the correlation in a
FIFO capped at 20. -/
def updateTraitWeights (w : AdaptiveWeights) (r : TraitRates) (d : TraitDistributions) :
    AdaptiveWeights × TraitRates :=
  ({ speed := stepWeight w.speed d.speed.correlation
     vision := stepWeight w.vision d.vision.correlation
     size := stepWeight w.size d.size.correlation
     efficiency := stepWeight w.efficiency d.efficiency.correlation },
   { speed := pushSuccessRate r.speed d.speed.correlation
     vision := pushSuccessRate r.vision d.vision.correlation
     size := pushSuccessRate r.size d.size.correlation
     efficiency := pushSuccessRate r.efficiency d.efficiency.correlation })

/-- The `adaptiveWeights` effect of `Simulation.triggerEvent('ice-age')` in
`part_002`: `adaptiveWeights.efficiency += 0.3` (no clamp). -/
def iceAgeWeights (w : AdaptiveWeights) : AdaptiveWeights :=
  { w with efficiency := w.efficiency + 3/10 }

/-- The `adaptiveWeights` effect of `Simulation.triggerEvent('plague')` in
`part_002`: `adaptiveWeights.efficiency += 0.2` (no clamp). -/
def plagueWeights (w : AdaptiveWeights) : AdaptiveWeights :=
  { w with efficiency := w.efficiency + 1/5 }

/-! ## selectParents and getAdaptiveMutationRate -/

/-- The weighted fitness computed inside `selectParents`: raw fitness plus
trait-weight terms plus conditional pressure bonuses. -/
def weightedFitness (w : AdaptiveWeights) (pr : Pressures) (o : OrgRecord) : ℚ :=
  let base := o.fitness
    + o.genes.speed * w.speed * 2
    + o.genes.vision * w.vision * (1/10)
    + o.genes.size * w.size * (1/2)
    + o.genes.efficiency * w.efficiency * 10
  let withStarve :=
    if pr.starvation > 1/2 then base + o.genes.efficiency * 20 + o.genes.vision * (1/5)
    else base
  if pr.competition > 1/2 then withStarve + o.genes.speed * 3 + o.genes.size
  else withStarve

/-- `EvolutionIntelligence.selectParents(population, selectionPressure)`:
sort by weighted fitness descending, then take the top
`Math.max(Math.floor(length * pressure), 2)` entries (a `slice`, so never
more than the population itself). -/
def selectParents (w : AdaptiveWeights) (pr : Pressures) (population : List OrgRecord)
    (selectionPressure : ℚ) : List OrgRecord :=
  let weighted := population.map (fun o => (o, weightedFitness w pr o))
  let sorted := weighted.mergeSort (fun a b => decide (b.2 ≤ a.2))
  let survivalCount : ℤ := ⌊(population.length : ℚ) * selectionPressure⌋
  (sorted.take (max survivalCount 2).toNat).map (·.1)

/-- `EvolutionIntelligence.getAdaptiveMutationRate(baseRate)`: scales the base
rate by `1 + instability * 0.5`, additionally by `0.7` when the trailing
5-generation mean survival exceeds `0.7`.  `history` is the recorded
`survivalRate` of each generation in `generationHistory`. -/
def getAdaptiveMutationRate (history : List ℚ) (instability baseRate : ℚ) : ℚ :=
  let instabilityFactor := 1 + instability * (1/2)
  let recentSuccess := lastN 5 history
  if recentSuccess.length ≥ 5 then
    if recentSuccess.sum / 5 > 7/10 then baseRate * (7/10) * instabilityFactor
    else baseRate * instabilityFactor
  else baseRate * instabilityFactor

/-! ## EcosystemIntelligence (`src/unnamed/part_000`) -/

/-- Discrete ecosystem phase. -/
inductive Phase
  | growth
  | stable
  | decline
  | crisis
  deriving Repr, DecidableEq

/-- Discrete pressure level. -/
inductive PressureLevel
  | low
  | medium
  | high
  deriving Repr, DecidableEq

/-- Discrete diversity tier. -/
inductive DiversityLevel
  | low
  | medium
  | high
  deriving Repr, DecidableEq

/-- The discrete `ecosystemState` of `EcosystemIntelligence`. -/
structure EcosystemState where
  phase : Phase
  pressure : PressureLevel
  diversity : DiversityLevel
  deriving Repr, DecidableEq

/-- Constructor value of `ecosystemState` (`growth`/`low`/`high`). -/
def initialEcosystemState : EcosystemState :=
  { phase := Phase.growth, pressure := PressureLevel.low, diversity := DiversityLevel.high }

/-- The fields of the `analyzeEcosystem` analysis record that
`updateEcosystemState` reads.  `resourceRat` stands for the source field
`resourceRatio` (`food.length / max(alive, 1)`). -/
structure EcoAnalysis where
  populationSize : ℕ
  resourceRat : ℚ
  diversity : ℚ
  deriving Repr, DecidableEq

/-- `EcosystemIntelligence.updateEcosystemState(analysis)`, applied to the
`populationTrends` list as it stands after `analyzeEcosystem` pushed the
current population size.  Phase: only updated once at least 3 samples exist;
the 3-sample trend (`recent[2] - recent[0]`) is tested first (`> 5` growth,
`< -5` decline), and only inside the remaining band is `populationSize < 5`
checked for crisis, else stable. -/
def updateEcosystemState (trends : List ℚ) (st : EcosystemState) (a : EcoAnalysis) :
    EcosystemState :=
  let phase :=
    if trends.length ≥ 3 then
      let recent := lastN 3 trends
      let trend := recent.getD 2 0 - recent.getD 0 0
      if trend > 5 then Phase.growth
      else if trend < -5 then Phase.decline
      else if a.populationSize < 5 then Phase.crisis
      else Phase.stable
    else st.phase
  let pressure :=
    if a.resourceRat < 1 then PressureLevel.high
    else if a.resourceRat < 2 then PressureLevel.medium
    else PressureLevel.low
  let diversity :=
    if a.diversity < 5 then DiversityLevel.low
    else if a.diversity < 15 then DiversityLevel.medium
    else DiversityLevel.high
  { phase := phase, pressure := pressure, diversity := diversity }

/-- The `populationTrends` push of `analyzeEcosystem` (append the alive count
and cap the window at 50 samples). -/
def pushTrend (trends : List ℚ) (populationSize : ℕ) : List ℚ :=
  let ys := trends ++ [(populationSize : ℚ)]
  if ys.length > 50 then ys.drop 1 else ys

/-! ## Organism physics (`src/unnamed/part_002`, `Organism.update`) -/

/-- A 2D vector (position or velocity). -/
structure Vec2 where
  x : ℚ
  y : ℚ
  deriving Repr, DecidableEq

/-- One axis of the boundary block of `Organism.update`: the two sequential
checks `if (x < margin) { x = margin; vx = abs(vx) }` then
`if (x > len - margin) { x = len - margin; vx = -abs(vx) }`, applied to the
integrated coordinate `x0`. -/
def bounceAxis (len margin x0 vx : ℚ) : ℚ × ℚ :=
  let s1 := if x0 < margin then ((margin : ℚ), |vx|) else (x0, vx)
  if s1.1 > len - margin then (len - margin, -|s1.2|) else s1

/-- The movement-and-boundary block of `Organism.update`: integrate position
by `velocity * deltaTime`, then the four sequential boundary checks (the x
checks and y checks are independent) that clamp to the margin (the
organism's body size) and replace the velocity component by its
inward-pointing absolute value (bounce, not wrap). -/
def integrateAndBounce (width height margin deltaTime : ℚ) (p v : Vec2) : Vec2 × Vec2 :=
  let bx := bounceAxis width margin (p.x + v.x * deltaTime) v.x
  let byy := bounceAxis height margin (p.y + v.y * deltaTime) v.y
  (⟨bx.1, byy.1⟩, ⟨bx.2, byy.2⟩)

/-! ## BehavioralBrain (`src/unnamed/part_001`) -/

/-- One scored behavior entry as built by the six `evaluate*` methods. -/
structure BehaviorEntry where
  name : String
  priority : ℚ
  deriving Repr, DecidableEq

/-- The commitment state of a `BehavioralBrain`. -/
structure BrainState where
  currentBehavior : Option BehaviorEntry
  behaviorTimer : ℕ
  behaviorCommitment : ℕ
  deriving Repr, DecidableEq

/-- Constructor state of `BehavioralBrain` (no behavior, timer 0,
commitment window of 30 frames). -/
def initialBrainState : BrainState :=
  { currentBehavior := none, behaviorTimer := 0, behaviorCommitment := 30 }

/-- `BehavioralBrain.evaluateBehaviors(environment, instincts, memory)`,
abstracted over the sorted score list the six `evaluate*` methods and the
instinct boosts produce for this call (`scored`, highest priority first).
While `behaviorTimer > 0` the timer is decremented and the committed
behavior is returned unchanged (`this.currentBehavior || behaviors[0]`);
otherwise the head of the sorted list is selected and the timer reset to the
commitment window. -/
def evaluateBehaviors (st : BrainState) (scored : List BehaviorEntry) :
    Option BehaviorEntry × BrainState :=
  if st.behaviorTimer > 0 then
    (match st.currentBehavior with
     | some b => some b
     | none => scored.head?,
     { st with behaviorTimer := st.behaviorTimer - 1 })
  else
    (scored.head?,
     { st with currentBehavior := scored.head?, behaviorTimer := st.behaviorCommitment })

/-- A sequence of `evaluateBehaviors` calls, one per tick, each with its own
(arbitrary) score list; returns the behaviors returned at each tick and the
final brain state. -/
def evalRun (st : BrainState) : List (List BehaviorEntry) →
    List (Option BehaviorEntry) × BrainState
  | [] => ([], st)
  | l :: ls =>
    let step := evaluateBehaviors st l
    let rest := evalRun step.2 ls
    (step.1 :: rest.1, rest.2)

/-! ## Organism.collectFood (`src/unnamed/part_002`) -/

/-- One food item (position and energy value). -/
structure Food where
  x : ℚ
  y : ℚ
  energy : ℚ
  deriving Repr, DecidableEq

/-- Squared distance from a position to a food item (the source compares
`Math.sqrt(dx*dx+dy*dy) < size`; we compare squares, which is equivalent for
nonnegative sizes). -/
def distSq (px py : ℚ) (f : Food) : ℚ :=
  (f.x - px) * (f.x - px) + (f.y - py) * (f.y - py)

/-- The organism fields `collectFood` touches. -/
structure Eater where
  x : ℚ
  y : ℚ
  size : ℚ
  energy : ℚ
  foodCollected : ℕ
  deriving Repr, DecidableEq

/-- Whether a food item is within collection range (`distance < size`). -/
def inRange (o : Eater) (f : Food) : Prop :=
  distSq o.x o.y f < o.size * o.size

instance (o : Eater) (f : Food) : Decidable (inRange o f) := by
  unfold inRange; infer_instance

/-- Eat one food item: energy increased and capped at 120, counter bumped. -/
def eat (o : Eater) (f : Food) : Eater :=
  { o with energy := min (o.energy + f.energy) 120, foodCollected := o.foodCollected + 1 }

/-- Helper for `collectFood`: scans the food list from the back (the source
loop runs `i` from `food.length - 1` down to `0`), eating the first item in
range and leaving the rest untouched.  Takes and returns the reversed list. -/
def collectFromRev (o : Eater) : List Food → Eater × List Food
  | [] => (o, [])
  | f :: rest =>
    if inRange o f then (eat o f, rest)
    else
      let r := collectFromRev o rest
      (r.1, f :: r.2)

/-- `Organism.collectFood(environment)`: remove (at most) the first in-range
food item found scanning from the end of the list, gain its energy capped at
120, and increment `foodCollected`; `break` stops after one item. -/
def collectFood (o : Eater) (food : List Food) : Eater × List Food :=
  let r := collectFromRev o food.reverse
  (r.1, r.2.reverse)

/-! ## Theorems -/

/-- The lower clamp `Math.max(min, value + change)` keeps a gene at or above
its minimum whenever it started there. -/
theorem mutateGene_lower (rate value range lo : ℚ) (d : GenePick) (h : lo ≤ value) :
    lo ≤ mutateGene rate value range lo d := by
  unfold mutateGene
  split
  · exact le_max_left _ _
  · exact h

/-- Input genome for the C1 counterexample: every gene at its claimed domain
maximum. -/
def c1Genome : Genome4 :=
  { genes := { speed := 10, vision := 200, size := 30, efficiency := 1 }
    color := { h := 0, s := 60, l := 50 } }

/-- Draws for the C1 counterexample: the speed branch fires with a positive
delta, nothing else fires. -/
def c1Picks : MutatePicks :=
  { speed := { test := 0, delta := 9/10 }
    vision := { test := 9/10, delta := 0 }
    size := { test := 9/10, delta := 0 }
    efficiency := { test := 9/10, delta := 0 }
    colorH := { test := 9/10, delta := 0 } }

/-- Claim C1 counterexample: `Genome.mutate` (`part_002`) does not clamp
above.  Mutating a genome whose speed already sits at the claimed domain
maximum 10, with draws that fire the speed branch with delta draw `0.9`,
yields speed `10.6 ∉ [0.5, 10]`. -/
theorem mutate_exceeds_speed_domain_max :
    (c1Genome.mutate (1/10) c1Picks).genes.speed = 53/5 ∧
    ¬ (c1Genome.mutate (1/10) c1Picks).genes.speed ≤ 10 := by
  constructor <;> norm_num [Genome4.mutate, mutateGene, c1Genome, c1Picks]

/-- Claim C1 (amended): for `Genome.mutate` and
`EvolutionIntelligence.intelligentMutation` every resulting gene stays at or
above its domain minimum (speed 0.5, vision 30, size 3, efficiency 0.3)
whenever the input does, for all rates, weights and random draws; and every
gene of `Genome.crossover` is copied from one of the two parents (hence
stays inside any interval containing both parents' genes).  The domain
maximum is not enforced by these two mutation operators. -/
theorem mutate_crossover_lower_bounds (g : Genome4) (rate : ℚ) (d : MutatePicks)
    (w : AdaptiveWeights) (p1 p2 : Genome4) (b : CrossPicks)
    (hs : 1/2 ≤ g.genes.speed) (hv : 30 ≤ g.genes.vision)
    (hz : 3 ≤ g.genes.size) (he : 3/10 ≤ g.genes.efficiency) :
    (1/2 ≤ (g.mutate rate d).genes.speed ∧ 30 ≤ (g.mutate rate d).genes.vision ∧
      3 ≤ (g.mutate rate d).genes.size ∧ 3/10 ≤ (g.mutate rate d).genes.efficiency) ∧
    (1/2 ≤ (intelligentMutation w g rate d).genes.speed ∧
      30 ≤ (intelligentMutation w g rate d).genes.vision ∧
      3 ≤ (intelligentMutation w g rate d).genes.size ∧
      3/10 ≤ (intelligentMutation w g rate d).genes.efficiency) ∧
    (((p1.crossover p2 b).genes.speed = p1.genes.speed ∨
        (p1.crossover p2 b).genes.speed = p2.genes.speed) ∧
      ((p1.crossover p2 b).genes.vision = p1.genes.vision ∨
        (p1.crossover p2 b).genes.vision = p2.genes.vision) ∧
      ((p1.crossover p2 b).genes.size = p1.genes.size ∨
        (p1.crossover p2 b).genes.size = p2.genes.size) ∧
      ((p1.crossover p2 b).genes.efficiency = p1.genes.efficiency ∨
        (p1.crossover p2 b).genes.efficiency = p2.genes.efficiency)) := by
  refine ⟨⟨?_, ?_, ?_, ?_⟩, ⟨?_, ?_, ?_, ?_⟩, ⟨?_, ?_, ?_, ?_⟩⟩
  · exact mutateGene_lower _ _ _ _ _ hs
  · exact mutateGene_lower _ _ _ _ _ hv
  · exact mutateGene_lower _ _ _ _ _ hz
  · exact mutateGene_lower _ _ _ _ _ he
  · exact mutateGene_lower _ _ _ _ _ hs
  · exact mutateGene_lower _ _ _ _ _ hv
  · exact mutateGene_lower _ _ _ _ _ hz
  · exact mutateGene_lower _ _ _ _ _ he
  all_goals simp only [Genome4.crossover]
  all_goals exact ite_eq_or_eq _ _ _

/-- Crossover coin flips for the C1 witness. -/
def c1Cross : CrossPicks :=
  { speed := true, vision := false, size := true, efficiency := false }

/-- Claim C1 witness: the amended lower-bound theorem applied at a concrete
in-domain genome. -/
theorem mutate_crossover_lower_bounds_witness :
    (1/2 ≤ c1Genome.genes.speed ∧ 30 ≤ c1Genome.genes.vision ∧
      3 ≤ c1Genome.genes.size ∧ 3/10 ≤ c1Genome.genes.efficiency) ∧
    ((1/2 ≤ (c1Genome.mutate (1/10) c1Picks).genes.speed ∧
        30 ≤ (c1Genome.mutate (1/10) c1Picks).genes.vision ∧
        3 ≤ (c1Genome.mutate (1/10) c1Picks).genes.size ∧
        3/10 ≤ (c1Genome.mutate (1/10) c1Picks).genes.efficiency) ∧
      (1/2 ≤ (intelligentMutation initialAdaptiveWeights c1Genome (1/10) c1Picks).genes.speed ∧
        30 ≤ (intelligentMutation initialAdaptiveWeights c1Genome (1/10) c1Picks).genes.vision ∧
        3 ≤ (intelligentMutation initialAdaptiveWeights c1Genome (1/10) c1Picks).genes.size ∧
        3/10 ≤ (intelligentMutation initialAdaptiveWeights c1Genome
          (1/10) c1Picks).genes.efficiency) ∧
      (((c1Genome.crossover c1Genome c1Cross).genes.speed = c1Genome.genes.speed ∨
          (c1Genome.crossover c1Genome c1Cross).genes.speed = c1Genome.genes.speed) ∧
        ((c1Genome.crossover c1Genome c1Cross).genes.vision = c1Genome.genes.vision ∨
          (c1Genome.crossover c1Genome c1Cross).genes.vision = c1Genome.genes.vision) ∧
        ((c1Genome.crossover c1Genome c1Cross).genes.size = c1Genome.genes.size ∨
          (c1Genome.crossover c1Genome c1Cross).genes.size = c1Genome.genes.size) ∧
        ((c1Genome.crossover c1Genome c1Cross).genes.efficiency = c1Genome.genes.efficiency ∨
          (c1Genome.crossover c1Genome c1Cross).genes.efficiency = c1Genome.genes.efficiency))) :=
  ⟨by norm_num [c1Genome],
    mutate_crossover_lower_bounds c1Genome (1/10) c1Picks initialAdaptiveWeights c1Genome
      c1Genome c1Cross
      (by norm_num [c1Genome]) (by norm_num [c1Genome]) (by norm_num [c1Genome])
      (by norm_num [c1Genome])⟩

/-- Claim C2 counterexample: on the empty population (size 0),
`selectParents` returns the empty list — fewer than the 2 organisms the
claim promises for every population size ≥ 0.  (`slice(0, 2)` of an empty
array is empty.) -/
theorem selectParents_empty_population :
    (selectParents initialAdaptiveWeights initialPressures [] (1/2)).length = 0 ∧
    ¬ 2 ≤ (selectParents initialAdaptiveWeights initialPressures [] (1/2)).length := by
  constructor <;> simp [selectParents]

/-- Claim C2 (amended): `selectParents` returns exactly
`min (max ⌊N·pressure⌋ 2) N` organisms for a population of size `N`; in
particular at least 2 whenever the population itself has at least 2
organisms (for a population of size 0 or 1 it returns all of them, fewer
than 2). -/
theorem selectParents_at_least_two (w : AdaptiveWeights) (pr : Pressures)
    (population : List OrgRecord) (selectionPressure : ℚ)
    (h : 2 ≤ population.length) :
    (selectParents w pr population selectionPressure).length =
      min (max (⌊(population.length : ℚ) * selectionPressure⌋ : ℤ) 2).toNat
        population.length ∧
    2 ≤ (selectParents w pr population selectionPressure).length := by
  have hlen : (selectParents w pr population selectionPressure).length =
      min (max (⌊(population.length : ℚ) * selectionPressure⌋ : ℤ) 2).toNat
        population.length := by
    simp [selectParents, List.length_take, List.length_mergeSort]
  refine ⟨hlen, ?_⟩
  rw [hlen]
  have h2 : 2 ≤ (max (⌊(population.length : ℚ) * selectionPressure⌋ : ℤ) 2).toNat := by
    have : (2 : ℤ) ≤ max (⌊(population.length : ℚ) * selectionPressure⌋ : ℤ) 2 :=
      le_max_right _ _
    omega
  omega

/-- A concrete two-organism population for the C2 witness. -/
def c2Pop : List OrgRecord :=
  [{ alive := true, fitness := 5, energy := 50, age := 10, foodCollected := 2,
     genes := { speed := 3, vision := 100, size := 10, efficiency := 1/2 } },
   { alive := false, fitness := 1, energy := 0, age := 4, foodCollected := 0,
     genes := { speed := 2, vision := 80, size := 8, efficiency := 2/5 } }]

/-- Claim C2 witness: the amended theorem applied to a population of size 2
with pressure 0.5. -/
theorem selectParents_at_least_two_witness :
    2 ≤ c2Pop.length ∧
    2 ≤ (selectParents initialAdaptiveWeights initialPressures c2Pop (1/2)).length :=
  ⟨by simp [c2Pop],
    (selectParents_at_least_two initialAdaptiveWeights initialPressures c2Pop (1/2)
      (by simp [c2Pop])).2⟩

/-- Population-trend history for the C3 counterexample: alive counts 20, 10,
then 4 (the last entry is the current alive count pushed by
`analyzeEcosystem`). -/
def c3Trends : List ℚ := [20, 10, 4]

/-- Analysis record for the C3 counterexample: 4 organisms alive. -/
def c3Analysis : EcoAnalysis :=
  { populationSize := 4, resourceRat := 3, diversity := 10 }

/-- Claim C3 counterexample: with trend history `[20, 10, 4]` and 4 alive,
the 3-sample trend is `4 - 20 = -16 < -5`, so `updateEcosystemState` sets
phase `decline`, not `crisis` — the trend branches are tested before the
alive-count check, so alive < 5 does not override them. -/
theorem updateEcosystemState_decline_beats_crisis :
    c3Analysis.populationSize < 5 ∧
    (updateEcosystemState c3Trends initialEcosystemState c3Analysis).phase = Phase.decline ∧
    (updateEcosystemState c3Trends initialEcosystemState c3Analysis).phase ≠ Phase.crisis := by
  refine ⟨by norm_num [c3Analysis], ?_, ?_⟩
  · norm_num [updateEcosystemState, lastN, c3Trends, c3Analysis, List.getD]
  · norm_num [updateEcosystemState, lastN, c3Trends, c3Analysis, List.getD]
    decide

/-- Claim C3 (amended): `updateEcosystemState` sets phase `crisis` for an
alive count < 5 only when the trend history already has at least 3 samples
and the 3-sample trend lies in the band `[-5, 5]`; a trend above 5 yields
`growth` and below −5 yields `decline` even with alive < 5, and with fewer
than 3 samples the phase is left unchanged. -/
theorem updateEcosystemState_crisis_in_band (trends : List ℚ) (st : EcosystemState)
    (a : EcoAnalysis) (h3 : 3 ≤ trends.length)
    (hhi : (lastN 3 trends).getD 2 0 - (lastN 3 trends).getD 0 0 ≤ 5)
    (hlo : -5 ≤ (lastN 3 trends).getD 2 0 - (lastN 3 trends).getD 0 0)
    (hp : a.populationSize < 5) :
    (updateEcosystemState trends st a).phase = Phase.crisis := by
  simp only [updateEcosystemState]
  rw [if_pos h3, if_neg (not_lt.mpr hhi), if_neg (not_lt.mpr hlo), if_pos hp]

/-- Claim C3 witness: the amended crisis condition applied to the flat
history `[4, 4, 4]` with 4 alive. -/
theorem updateEcosystemState_crisis_in_band_witness :
    3 ≤ ([4, 4, 4] : List ℚ).length ∧
    (lastN 3 [4, 4, 4]).getD 2 0 - (lastN 3 [4, 4, 4]).getD 0 0 ≤ 5 ∧
    -5 ≤ (lastN 3 [4, 4, 4]).getD 2 0 - (lastN 3 [4, 4, 4]).getD 0 0 ∧
    c3Analysis.populationSize < 5 ∧
    (updateEcosystemState [4, 4, 4] initialEcosystemState c3Analysis).phase = Phase.crisis :=
  ⟨by simp, by norm_num [lastN, List.getD], by norm_num [lastN, List.getD],
    by norm_num [c3Analysis],
    updateEcosystemState_crisis_in_band [4, 4, 4] initialEcosystemState c3Analysis
      (by simp) (by norm_num [lastN, List.getD]) (by norm_num [lastN, List.getD])
      (by norm_num [c3Analysis])⟩

/-- Claim C4 counterexample: on an empty population `analyzeGeneration`
computes `survivalRate = alive.length / population.length = 0/0`, which is
JavaScript `NaN` (modelled `none`) — not the 0 the claim promises, and no
fallback denominator guards it. -/
theorem analyzeGeneration_empty_survivalRate_nan :
    (analyzeGeneration []).survivalRate = none ∧
    (analyzeGeneration []).survivalRate ≠ some 0 := by
  constructor <;> simp [analyzeGeneration, jsDiv]

/-- Claim C4 (amended): every aggregate statistic of `analyzeGeneration`
other than `survivalRate` defaults to 0 over an empty collection — averages
over no survivors, casualty averages and death-cause tallies over no
casualties, every `calculateAverage` over an empty array, and the
correlation denominator falls back to 1 when the survivor+casualty mean sum
is 0 — but `survivalRate` itself is the unguarded quotient
`alive.length / population.length`: `NaN` (not 0) on an empty population
and a plain rational otherwise. -/
theorem analyzeGeneration_empty_defaults :
    (∀ pop : List OrgRecord, pop.filter (·.alive) = [] →
      (analyzeGeneration pop).avgFitness = 0 ∧
      (analyzeGeneration pop).avgEnergy = 0 ∧
      (analyzeGeneration pop).avgAge = 0 ∧
      (analyzeGeneration pop).resourceEfficiency = 0 ∧
      (analyzeGeneration pop).traitDistributions.speed.survivorAvg = 0 ∧
      (analyzeGeneration pop).traitDistributions.vision.survivorAvg = 0 ∧
      (analyzeGeneration pop).traitDistributions.size.survivorAvg = 0 ∧
      (analyzeGeneration pop).traitDistributions.efficiency.survivorAvg = 0) ∧
    (∀ pop : List OrgRecord, pop.filter (fun o => !o.alive) = [] →
      (analyzeGeneration pop).deathCauses =
        { starvation := 0, exhaustion := 0, inefficiency := 0, unknown := 0 } ∧
      (analyzeGeneration pop).traitDistributions.speed.casualtyAvg = 0 ∧
      (analyzeGeneration pop).traitDistributions.vision.casualtyAvg = 0 ∧
      (analyzeGeneration pop).traitDistributions.size.casualtyAvg = 0 ∧
      (analyzeGeneration pop).traitDistributions.efficiency.casualtyAvg = 0) ∧
    (∀ pop : List OrgRecord, pop = [] → (analyzeGeneration pop).survivalRate = none) ∧
    (∀ pop : List OrgRecord, pop ≠ [] →
      (analyzeGeneration pop).survivalRate =
        some (((pop.filter (·.alive)).length : ℚ) / pop.length)) ∧
    (∀ survivors casualties : List OrgRecord, ∀ trait : Genes4 → ℚ,
      (compareTraitSuccess survivors casualties trait).survivorAvg +
          (compareTraitSuccess survivors casualties trait).casualtyAvg = 0 →
      (compareTraitSuccess survivors casualties trait).correlation =
        (compareTraitSuccess survivors casualties trait).advantage / 1) ∧
    calculateAverage [] = 0 := by
  refine ⟨?_, ?_, ?_, ?_, ?_, by simp [calculateAverage]⟩
  · intro pop h
    simp [analyzeGeneration, h, calculateAverage, calculateResourceEfficiency,
      analyzeTraitDistributions, compareTraitSuccess]
  · intro pop h
    simp [analyzeGeneration, h, analyzeDeathCauses, analyzeTraitDistributions,
      compareTraitSuccess]
  · intro pop h
    simp [analyzeGeneration, h, jsDiv]
  · intro pop h
    have hne : ((pop.length : ℚ)) ≠ 0 := by
      have h0 : pop.length ≠ 0 := by simpa [List.length_eq_zero] using h
      exact_mod_cast h0
    simp [analyzeGeneration, jsDiv, hne]
  · intro survivors casualties trait h
    simp only [compareTraitSuccess] at h ⊢
    rw [if_pos h]

/-- A one-organism population with no survivors, for the C4 witness. -/
def c4Pop : List OrgRecord :=
  [{ alive := false, fitness := 0, energy := 0, age := 1, foodCollected := 0,
     genes := { speed := 2, vision := 50, size := 5, efficiency := 3/5 } }]

/-- Claim C4 witness: the amended defaults applied to a concrete population
whose survivor set is empty (all statistics over the empty survivor set are
0, and the nonempty-population survival rate is a plain rational). -/
theorem analyzeGeneration_empty_defaults_witness :
    c4Pop.filter (·.alive) = [] ∧
    (analyzeGeneration c4Pop).avgFitness = 0 ∧
    c4Pop ≠ [] ∧
    (analyzeGeneration c4Pop).survivalRate =
      some (((c4Pop.filter (·.alive)).length : ℚ) / c4Pop.length) :=
  ⟨by simp [c4Pop],
    (analyzeGeneration_empty_defaults.1 c4Pop (by simp [c4Pop])).1,
    by simp [c4Pop],
    analyzeGeneration_empty_defaults.2.2.2.1 c4Pop (by simp [c4Pop])⟩

/-- Claim C5 counterexample: starting from the constructor weights (all 1.0),
four `triggerEvent('ice-age')` calls push the efficiency weight to
`1.0 + 4 × 0.3 = 2.2 > 2.0` — the event adds to `adaptiveWeights.efficiency`
without any clamp, unlike `updateTraitWeights`. -/
theorem iceAge_exceeds_weight_cap :
    (iceAgeWeights (iceAgeWeights (iceAgeWeights
        (iceAgeWeights initialAdaptiveWeights)))).efficiency = 11/5 ∧
    ¬ (iceAgeWeights (iceAgeWeights (iceAgeWeights
        (iceAgeWeights initialAdaptiveWeights)))).efficiency ≤ 2 := by
  constructor <;> norm_num [iceAgeWeights, initialAdaptiveWeights]

/-- One `updateTraitWeights` step keeps a weight inside `[0.5, 2.0]` and
moves it by at most `0.05`. -/
theorem stepWeight_bounds (w c : ℚ) (h1 : 1/2 ≤ w) (h2 : w ≤ 2) :
    (1/2 ≤ stepWeight w c ∧ stepWeight w c ≤ 2) ∧ |stepWeight w c - w| ≤ 1/20 := by
  unfold stepWeight
  split_ifs with hc1 hc2
  · refine ⟨⟨le_min (by norm_num) (by linarith), min_le_left _ _⟩, ?_⟩
    rw [abs_le]
    rcases min_cases 2 (w + 1/20) with ⟨he, hle⟩ | ⟨he, hle⟩ <;> rw [he] <;>
      constructor <;> linarith
  · refine ⟨⟨le_max_left _ _, ?_⟩, ?_⟩
    · rcases max_cases (1/2 : ℚ) (w - 1/20) with ⟨he, hle⟩ | ⟨he, hle⟩ <;> rw [he] <;> linarith
    · rw [abs_le]
      rcases max_cases (1/2 : ℚ) (w - 1/20) with ⟨he, hle⟩ | ⟨he, hle⟩ <;> rw [he] <;>
        constructor <;> linarith
  · refine ⟨⟨h1, h2⟩, by simp⟩

/-- Claim C5 (amended): `updateTraitWeights` preserves the `[0.5, 2.0]`
bound on all four adaptive weights (each step moves a weight by at most
±0.05 and clamps at 0.5 and 2.0), but it is not true of every simulation
operation: `triggerEvent('ice-age')` adds 0.3 and `triggerEvent('plague')`
adds 0.2 to the efficiency weight with no clamp, so those events can drive
the weight above 2.0. -/
theorem updateTraitWeights_preserves_bounds (w : AdaptiveWeights) (r : TraitRates)
    (d : TraitDistributions)
    (hs1 : 1/2 ≤ w.speed) (hs2 : w.speed ≤ 2)
    (hv1 : 1/2 ≤ w.vision) (hv2 : w.vision ≤ 2)
    (hz1 : 1/2 ≤ w.size) (hz2 : w.size ≤ 2)
    (he1 : 1/2 ≤ w.efficiency) (he2 : w.efficiency ≤ 2) :
    (1/2 ≤ (updateTraitWeights w r d).1.speed ∧ (updateTraitWeights w r d).1.speed ≤ 2 ∧
      |(updateTraitWeights w r d).1.speed - w.speed| ≤ 1/20) ∧
    (1/2 ≤ (updateTraitWeights w r d).1.vision ∧ (updateTraitWeights w r d).1.vision ≤ 2 ∧
      |(updateTraitWeights w r d).1.vision - w.vision| ≤ 1/20) ∧
    (1/2 ≤ (updateTraitWeights w r d).1.size ∧ (updateTraitWeights w r d).1.size ≤ 2 ∧
      |(updateTraitWeights w r d).1.size - w.size| ≤ 1/20) ∧
    (1/2 ≤ (updateTraitWeights w r d).1.efficiency ∧
      (updateTraitWeights w r d).1.efficiency ≤ 2 ∧
      |(updateTraitWeights w r d).1.efficiency - w.efficiency| ≤ 1/20) := by
  have hs := stepWeight_bounds w.speed d.speed.correlation hs1 hs2
  have hv := stepWeight_bounds w.vision d.vision.correlation hv1 hv2
  have hz := stepWeight_bounds w.size d.size.correlation hz1 hz2
  have he := stepWeight_bounds w.efficiency d.efficiency.correlation he1 he2
  exact ⟨⟨hs.1.1, hs.1.2, hs.2⟩, ⟨hv.1.1, hv.1.2, hv.2⟩, ⟨hz.1.1, hz.1.2, hz.2⟩,
    ⟨he.1.1, he.1.2, he.2⟩⟩

/-- Empty correlation FIFOs for the C5 witness. -/
def c5Rates : TraitRates :=
  { speed := [], vision := [], size := [], efficiency := [] }

/-- Trait-distribution record for the C5 witness: strong positive speed
correlation, strong negative vision correlation, neutral rest. -/
def c5Dists : TraitDistributions :=
  { speed := { survivorAvg := 4, casualtyAvg := 2, advantage := 2, correlation := 1/3 }
    vision := { survivorAvg := 50, casualtyAvg := 90, advantage := -40, correlation := -2/7 }
    size := { survivorAvg := 10, casualtyAvg := 10, advantage := 0, correlation := 0 }
    efficiency := { survivorAvg := 1/2, casualtyAvg := 1/2, advantage := 0, correlation := 0 } }

/-- Claim C5 witness: the amended bound-preservation theorem applied to the
constructor weights and a concrete trait-distribution record. -/
theorem updateTraitWeights_preserves_bounds_witness :
    (1/2 ≤ initialAdaptiveWeights.speed ∧ initialAdaptiveWeights.speed ≤ 2) ∧
    (1/2 ≤ (updateTraitWeights initialAdaptiveWeights c5Rates c5Dists).1.speed ∧
      (updateTraitWeights initialAdaptiveWeights c5Rates c5Dists).1.speed ≤ 2 ∧
      |(updateTraitWeights initialAdaptiveWeights c5Rates c5Dists).1.speed -
        initialAdaptiveWeights.speed| ≤ 1/20) ∧
    (1/2 ≤ (updateTraitWeights initialAdaptiveWeights c5Rates c5Dists).1.efficiency ∧
      (updateTraitWeights initialAdaptiveWeights c5Rates c5Dists).1.efficiency ≤ 2 ∧
      |(updateTraitWeights initialAdaptiveWeights c5Rates c5Dists).1.efficiency -
        initialAdaptiveWeights.efficiency| ≤ 1/20) :=
  ⟨by norm_num [initialAdaptiveWeights],
    (updateTraitWeights_preserves_bounds initialAdaptiveWeights c5Rates c5Dists
      (by norm_num [initialAdaptiveWeights]) (by norm_num [initialAdaptiveWeights])
      (by norm_num [initialAdaptiveWeights]) (by norm_num [initialAdaptiveWeights])
      (by norm_num [initialAdaptiveWeights]) (by norm_num [initialAdaptiveWeights])
      (by norm_num [initialAdaptiveWeights]) (by norm_num [initialAdaptiveWeights])).1,
    (updateTraitWeights_preserves_bounds initialAdaptiveWeights c5Rates c5Dists
      (by norm_num [initialAdaptiveWeights]) (by norm_num [initialAdaptiveWeights])
      (by norm_num [initialAdaptiveWeights]) (by norm_num [initialAdaptiveWeights])
      (by norm_num [initialAdaptiveWeights]) (by norm_num [initialAdaptiveWeights])
      (by norm_num [initialAdaptiveWeights]) (by norm_num [initialAdaptiveWeights])).2.2.2⟩

/-- Claim C6 counterexample: with base rate 0.1, the effective per-gene
mutation probability of a stability-0.5 genome is `0.1 × (2 − 0.5) = 0.15`,
which is 1.5× — not 2× — the stability-1.0 genome's `0.1 × (2 − 1) = 0.1`.
So the expected trait-change magnitude ratio is 1.5, not ~2. -/
theorem effective_rate_not_double :
    effectiveMutationRate (1/10) (1/2) = 3/20 ∧
    effectiveMutationRate (1/10) 1 = 1/10 ∧
    effectiveMutationRate (1/10) (1/2) ≠ 2 * effectiveMutationRate (1/10) 1 := by
  refine ⟨by norm_num [effectiveMutationRate], by norm_num [effectiveMutationRate], ?_⟩
  norm_num [effectiveMutationRate]

/-- Claim C6 (amended): `Genome.mutate` in `SimulationEngine.js` fires each
gene's mutation branch exactly when the uniform draw is below
`rate × (2 − mutationStability)`: on every non-stability gene, mutating a
stability-`s` genome at base rate `r` behaves identically to mutating the
corresponding stability-1.0 genome at base rate `r × (2 − s)`.  Hence for
stability 0.5 versus 1.0 the effective rate — and with it the expected
trait-change magnitude — is scaled by `(2 − 0.5)/(2 − 1) = 1.5`, not 2. -/
theorem mutate_stability_equivalence (g : Genes7) (r : ℚ) (d : MutatePicks7) :
    ((g.mutate r d).speed =
        (({ g with mutationStability := 1 } : Genes7).mutate
          (r * (2 - g.mutationStability)) d).speed ∧
      (g.mutate r d).vision =
        (({ g with mutationStability := 1 } : Genes7).mutate
          (r * (2 - g.mutationStability)) d).vision ∧
      (g.mutate r d).size =
        (({ g with mutationStability := 1 } : Genes7).mutate
          (r * (2 - g.mutationStability)) d).size ∧
      (g.mutate r d).efficiency =
        (({ g with mutationStability := 1 } : Genes7).mutate
          (r * (2 - g.mutationStability)) d).efficiency ∧
      (g.mutate r d).aggression =
        (({ g with mutationStability := 1 } : Genes7).mutate
          (r * (2 - g.mutationStability)) d).aggression ∧
      (g.mutate r d).dietType =
        (({ g with mutationStability := 1 } : Genes7).mutate
          (r * (2 - g.mutationStability)) d).dietType) ∧
    (∀ r0 : ℚ, effectiveMutationRate r0 (1/2) = (3/2) * effectiveMutationRate r0 1) := by
  have hrate : effectiveMutationRate (r * (2 - g.mutationStability)) 1 =
      effectiveMutationRate r g.mutationStability := by
    unfold effectiveMutationRate; ring
  refine ⟨?_, fun r0 => by unfold effectiveMutationRate; ring⟩
  simp only [Genes7.mutate, hrate]
  exact ⟨trivial, trivial, trivial, trivial, trivial, trivial⟩

/-- One axis of the boundary block: in a non-degenerate arena the clamped
coordinate lands in `[margin, len - margin]`, a low-side violation leaves
the velocity component at `|vx|` (pointing into the arena), a high-side
violation at `-|vx|`, and without a violation both coordinate and velocity
pass through unchanged. -/
theorem bounceAxis_spec (len margin x0 vx : ℚ) (hlen : 2 * margin ≤ len) :
    (margin ≤ (bounceAxis len margin x0 vx).1 ∧
      (bounceAxis len margin x0 vx).1 ≤ len - margin) ∧
    (x0 < margin → (bounceAxis len margin x0 vx).2 = |vx|) ∧
    (¬ x0 < margin → len - margin < x0 → (bounceAxis len margin x0 vx).2 = -|vx|) ∧
    (margin ≤ x0 → x0 ≤ len - margin →
      (bounceAxis len margin x0 vx).1 = x0 ∧ (bounceAxis len margin x0 vx).2 = vx) := by
  by_cases h1 : x0 < margin
  · have e : bounceAxis len margin x0 vx = (margin, |vx|) := by
      unfold bounceAxis
      rw [if_pos h1]
      exact if_neg (show ¬ ((margin : ℚ), |vx|).1 > len - margin by
        show ¬ margin > len - margin; push_neg; linarith)
    rw [e]
    dsimp only
    exact ⟨⟨le_refl _, by linarith⟩, fun _ => rfl, fun hn _ => absurd h1 hn,
      fun hm _ => absurd h1 (not_lt.mpr hm)⟩
  · by_cases h2 : x0 > len - margin
    · have e : bounceAxis len margin x0 vx = (len - margin, -|vx|) := by
        unfold bounceAxis
        rw [if_neg h1]
        exact if_pos (show (x0, vx).1 > len - margin from h2)
      rw [e]
      dsimp only
      exact ⟨⟨by linarith, le_refl _⟩, fun hc => absurd hc h1, fun _ _ => rfl,
        fun _ hle => absurd h2 (not_lt.mpr hle)⟩
    · have e : bounceAxis len margin x0 vx = (x0, vx) := by
        unfold bounceAxis
        rw [if_neg h1]
        exact if_neg (show ¬ (x0, vx).1 > len - margin from h2)
      rw [e]
      dsimp only
      push_neg at h1 h2
      exact ⟨⟨h1, h2⟩, fun hc => absurd hc (not_lt.mpr h1),
        fun _ hc => absurd hc (not_lt.mpr h2), fun _ _ => ⟨rfl, rfl⟩⟩

/-- Claim C7: after the movement-and-boundary block of `Organism.update`
(the only part of an update that writes the position; the earlier AI phases
modify velocity only), the position lies inside
`[margin, width - margin] × [margin, height - margin]` with margin = body
size, and an axis whose integrated coordinate violated a boundary has its
velocity component reflected to point back into the arena (`|v|` at the low
edge, `-|v|` at the high edge); an axis without a violation is integrated
unchanged.  Requires the arena to be at least twice the body size in each
dimension. -/
theorem organism_update_bounce_bounds (width height margin deltaTime : ℚ) (p v : Vec2)
    (hw : 2 * margin ≤ width) (hh : 2 * margin ≤ height) :
    (margin ≤ (integrateAndBounce width height margin deltaTime p v).1.x ∧
      (integrateAndBounce width height margin deltaTime p v).1.x ≤ width - margin ∧
      margin ≤ (integrateAndBounce width height margin deltaTime p v).1.y ∧
      (integrateAndBounce width height margin deltaTime p v).1.y ≤ height - margin) ∧
    ((p.x + v.x * deltaTime < margin →
        (integrateAndBounce width height margin deltaTime p v).2.x = |v.x|) ∧
      (¬ p.x + v.x * deltaTime < margin → width - margin < p.x + v.x * deltaTime →
        (integrateAndBounce width height margin deltaTime p v).2.x = -|v.x|) ∧
      (margin ≤ p.x + v.x * deltaTime → p.x + v.x * deltaTime ≤ width - margin →
        (integrateAndBounce width height margin deltaTime p v).1.x = p.x + v.x * deltaTime ∧
        (integrateAndBounce width height margin deltaTime p v).2.x = v.x)) ∧
    ((p.y + v.y * deltaTime < margin →
        (integrateAndBounce width height margin deltaTime p v).2.y = |v.y|) ∧
      (¬ p.y + v.y * deltaTime < margin → height - margin < p.y + v.y * deltaTime →
        (integrateAndBounce width height margin deltaTime p v).2.y = -|v.y|) ∧
      (margin ≤ p.y + v.y * deltaTime → p.y + v.y * deltaTime ≤ height - margin →
        (integrateAndBounce width height margin deltaTime p v).1.y = p.y + v.y * deltaTime ∧
        (integrateAndBounce width height margin deltaTime p v).2.y = v.y)) := by
  have hx := bounceAxis_spec width margin (p.x + v.x * deltaTime) v.x hw
  have hy := bounceAxis_spec height margin (p.y + v.y * deltaTime) v.y hh
  simp only [integrateAndBounce]
  exact ⟨⟨hx.1.1, hx.1.2, hy.1.1, hy.1.2⟩,
    ⟨hx.2.1, hx.2.2.1, hx.2.2.2⟩, ⟨hy.2.1, hy.2.2.1, hy.2.2.2⟩⟩

/-- Claim C7 witness: the bounce theorem applied in a 100 × 80 arena with
body size 5 to an organism stepping past the left and bottom edges. -/
theorem organism_update_bounce_bounds_witness :
    2 * (5 : ℚ) ≤ 100 ∧ 2 * (5 : ℚ) ≤ 80 ∧
    (5 ≤ (integrateAndBounce 100 80 5 1 ⟨2, 79⟩ ⟨-4, 3⟩).1.x ∧
      (integrateAndBounce 100 80 5 1 ⟨2, 79⟩ ⟨-4, 3⟩).1.x ≤ 100 - 5 ∧
      5 ≤ (integrateAndBounce 100 80 5 1 ⟨2, 79⟩ ⟨-4, 3⟩).1.y ∧
      (integrateAndBounce 100 80 5 1 ⟨2, 79⟩ ⟨-4, 3⟩).1.y ≤ 80 - 5) :=
  ⟨by norm_num, by norm_num,
    (organism_update_bounce_bounds 100 80 5 1 ⟨2, 79⟩ ⟨-4, 3⟩
      (by norm_num) (by norm_num)).1⟩

/-- While the commitment timer covers the remaining calls, every
`evaluateBehaviors` call returns the committed behavior unchanged, leaves it
committed, and counts the timer down by one per call. -/
theorem evalRun_committed (ls : List (List BehaviorEntry)) :
    ∀ st : BrainState, ∀ b : BehaviorEntry,
      st.currentBehavior = some b → ls.length ≤ st.behaviorTimer →
      (∀ o ∈ (evalRun st ls).1, o = some b) ∧
      (evalRun st ls).2.currentBehavior = some b ∧
      (evalRun st ls).2.behaviorTimer = st.behaviorTimer - ls.length := by
  induction ls with
  | nil =>
    intro st b hb _
    exact ⟨by simp [evalRun], by simp [evalRun, hb], by simp [evalRun]⟩
  | cons l t ih =>
    intro st b hb hlen
    have hpos : 0 < st.behaviorTimer := by
      have := hlen
      simp only [List.length_cons] at this
      omega
    have estep : evaluateBehaviors st l =
        (some b, { st with behaviorTimer := st.behaviorTimer - 1 }) := by
      unfold evaluateBehaviors
      rw [if_pos hpos, hb]
    have hrec := ih { st with behaviorTimer := st.behaviorTimer - 1 } b hb
      (by
        show t.length ≤ st.behaviorTimer - 1
        simp only [List.length_cons] at hlen
        omega)
    refine ⟨?_, ?_, ?_⟩
    · intro o ho
      simp only [evalRun, estep] at ho
      rcases List.mem_cons.mp ho with h | h
      · exact h
      · exact hrec.1 o h
    · simp only [evalRun, estep]
      exact hrec.2.1
    · simp only [evalRun, estep]
      rw [hrec.2.2]
      simp only [List.length_cons]
      omega

/-- Claim C8: once a call to `evaluateBehaviors` with an expired timer
selects the head `b` of the sorted score list, every subsequent call within
the commitment window (up to `behaviorCommitment` calls, the timer counting
down by one per call) returns exactly `b`, whatever score lists those later
calls compute — a new selection can occur only after the timer reaches 0. -/
theorem behavior_commitment_window (st : BrainState) (scored : List BehaviorEntry)
    (b : BehaviorEntry) (ls : List (List BehaviorEntry))
    (h0 : st.behaviorTimer = 0) (hb : scored.head? = some b)
    (hlen : ls.length ≤ st.behaviorCommitment) :
    (evaluateBehaviors st scored).1 = some b ∧
    ∀ o ∈ (evalRun (evaluateBehaviors st scored).2 ls).1, o = some b := by
  have hnot : ¬ st.behaviorTimer > 0 := by omega
  have esel1 : (evaluateBehaviors st scored).1 = some b := by
    unfold evaluateBehaviors
    rw [if_neg hnot]
    exact hb
  have esel2 : (evaluateBehaviors st scored).2.currentBehavior = some b := by
    unfold evaluateBehaviors
    rw [if_neg hnot]
    exact hb
  have esel3 : (evaluateBehaviors st scored).2.behaviorTimer = st.behaviorCommitment := by
    unfold evaluateBehaviors
    rw [if_neg hnot]
  exact ⟨esel1, (evalRun_committed ls _ b esel2 (by rw [esel3]; exact hlen)).1⟩

/-- Sorted score list for the C8 witness (food seeking wins). -/
def c8Scored : List BehaviorEntry :=
  [{ name := "food_seeking", priority := 1 },
   { name := "exploration", priority := 1/2 }]

/-- Thirty subsequent score lists for the C8 witness, all ranking a
different behavior on top. -/
def c8Later : List (List BehaviorEntry) :=
  List.replicate 30 [{ name := "exploration", priority := 7 },
    { name := "food_seeking", priority := 0 }]

/-- Claim C8 witness: the commitment theorem applied to the constructor
brain state — 30 subsequent calls all return the originally selected
food-seeking behavior even though exploration outscores it. -/
theorem behavior_commitment_window_witness :
    initialBrainState.behaviorTimer = 0 ∧
    c8Scored.head? = some { name := "food_seeking", priority := 1 } ∧
    c8Later.length ≤ initialBrainState.behaviorCommitment ∧
    (evaluateBehaviors initialBrainState c8Scored).1 =
      some { name := "food_seeking", priority := 1 } ∧
    ∀ o ∈ (evalRun (evaluateBehaviors initialBrainState c8Scored).2 c8Later).1,
      o = some { name := "food_seeking", priority := 1 } :=
  ⟨rfl, rfl, by simp [c8Later, initialBrainState],
    (behavior_commitment_window initialBrainState c8Scored
      { name := "food_seeking", priority := 1 } c8Later rfl rfl
      (by simp [c8Later, initialBrainState])).1,
    (behavior_commitment_window initialBrainState c8Scored
      { name := "food_seeking", priority := 1 } c8Later rfl rfl
      (by simp [c8Later, initialBrainState])).2⟩

/-- Claim C9: `getAdaptiveMutationRate` is monotonically non-decreasing in
the instability pressure for any fixed nonnegative base rate and fixed
generation-history survival record: the branch taken depends only on the
history, and both branches scale the base rate by the increasing factor
`1 + instability × 0.5`. -/
theorem getAdaptiveMutationRate_monotone (history : List ℚ) (baseRate i1 i2 : ℚ)
    (hb : 0 ≤ baseRate) (hi : i1 ≤ i2) :
    getAdaptiveMutationRate history i1 baseRate ≤
      getAdaptiveMutationRate history i2 baseRate := by
  unfold getAdaptiveMutationRate
  have hf : (1 : ℚ) + i1 * (1/2) ≤ 1 + i2 * (1/2) := by linarith
  dsimp only
  split_ifs
  · exact mul_le_mul_of_nonneg_left hf (by positivity)
  · exact mul_le_mul_of_nonneg_left hf hb
  · exact mul_le_mul_of_nonneg_left hf hb

/-- Claim C9 witness: monotonicity applied to a concrete five-generation
history of full survival with instabilities 0 ≤ 1 and base rate 0.1. -/
theorem getAdaptiveMutationRate_monotone_witness :
    (0 : ℚ) ≤ 1/10 ∧ (0 : ℚ) ≤ 1 ∧
    getAdaptiveMutationRate [1, 1, 1, 1, 1] 0 (1/10) ≤
      getAdaptiveMutationRate [1, 1, 1, 1, 1] 1 (1/10) :=
  ⟨by norm_num, by norm_num,
    getAdaptiveMutationRate_monotone [1, 1, 1, 1, 1] (1/10) 0 1 (by norm_num) (by norm_num)⟩

/-- Scanning the reversed food list: if nothing is in range the state and
list pass through unchanged. -/
theorem collectFromRev_no_hit (o : Eater) (rev : List Food)
    (h : ∀ f ∈ rev, ¬ inRange o f) : collectFromRev o rev = (o, rev) := by
  induction rev with
  | nil => rfl
  | cons f rest ih =>
    unfold collectFromRev
    rw [if_neg (h f (List.mem_cons_self f rest))]
    have := ih (fun g hg => h g (List.mem_cons_of_mem f hg))
    rw [this]

/-- Scanning the reversed food list: if some item is in range, exactly the
first in-range item of the scan is eaten and removed, the rest preserved in
order. -/
theorem collectFromRev_hit (o : Eater) (rev : List Food)
    (h : ∃ f ∈ rev, inRange o f) :
    ∃ a g b, rev = a ++ g :: b ∧ inRange o g ∧
      collectFromRev o rev = (eat o g, a ++ b) := by
  induction rev with
  | nil => simp at h
  | cons f rest ih =>
    by_cases hf : inRange o f
    · exact ⟨[], f, rest, rfl, hf, by unfold collectFromRev; rw [if_pos hf]; simp⟩
    · have hrest : ∃ g ∈ rest, inRange o g := by
        rcases h with ⟨g, hg, hgr⟩
        rcases List.mem_cons.mp hg with rfl | hmem
        · exact absurd hgr hf
        · exact ⟨g, hmem, hgr⟩
      rcases ih hrest with ⟨a, g, b, hsplit, hgr, heq⟩
      refine ⟨f :: a, g, b, by rw [hsplit]; rfl, hgr, ?_⟩
      unfold collectFromRev
      rw [if_neg hf, heq]
      simp

/-- Claim C10: one `Organism.collectFood` call is a single-item frame
effect.  If no food item lies within body-size distance, the organism
(energy, `foodCollected`) and the food list are unchanged.  Otherwise the
food list splits as `pre ++ [g] ++ post` around one in-range item `g`, the
new food list is exactly `pre ++ post` (one item removed, all others
untouched and in order), the energy becomes `min (energy + g.energy) 120`,
and `foodCollected` increments by exactly 1. -/
theorem collectFood_frame (o : Eater) (food : List Food) :
    ((∀ f ∈ food, ¬ inRange o f) → collectFood o food = (o, food)) ∧
    ((∃ f ∈ food, inRange o f) →
      ∃ pre g post, food = pre ++ g :: post ∧ inRange o g ∧
        (collectFood o food).2 = pre ++ post ∧
        (collectFood o food).1 = eat o g ∧
        (collectFood o food).1.energy = min (o.energy + g.energy) 120 ∧
        (collectFood o food).1.foodCollected = o.foodCollected + 1) := by
  constructor
  · intro h
    unfold collectFood
    rw [collectFromRev_no_hit o food.reverse (fun f hf => h f (List.mem_reverse.mp hf))]
    simp
  · intro h
    have hrev : ∃ f ∈ food.reverse, inRange o f := by
      rcases h with ⟨f, hf, hfr⟩
      exact ⟨f, List.mem_reverse.mpr hf, hfr⟩
    rcases collectFromRev_hit o food.reverse hrev with ⟨a, g, b, hsplit, hgr, heq⟩
    refine ⟨b.reverse, g, a.reverse, ?_, hgr, ?_, ?_, ?_, ?_⟩
    · have : food.reverse.reverse = (a ++ g :: b).reverse := by rw [hsplit]
      simpa [List.reverse_append] using this
    · unfold collectFood
      rw [heq]
      simp [List.reverse_append]
    · unfold collectFood
      rw [heq]
    · unfold collectFood
      rw [heq]
      simp [eat]
    · unfold collectFood
      rw [heq]
      simp [eat]

/-- Eater for the C10 witness: at the origin with body size 2. -/
def c10Eater : Eater :=
  { x := 0, y := 0, size := 2, energy := 115, foodCollected := 3 }

/-- Food list for the C10 witness: a far item and an in-range item. -/
def c10Food : List Food :=
  [{ x := 10, y := 0, energy := 20 }, { x := 1, y := 0, energy := 20 }]

/-- Claim C10 witness: the frame-effect theorem applied to a concrete
organism and food list with an in-range item (note the energy cap at 120
binds here: 115 + 20 is capped). -/
theorem collectFood_frame_witness :
    (∃ f ∈ c10Food, inRange c10Eater f) ∧
    (∃ pre g post, c10Food = pre ++ g :: post ∧ inRange c10Eater g ∧
      (collectFood c10Eater c10Food).2 = pre ++ post ∧
      (collectFood c10Eater c10Food).1 = eat c10Eater g ∧
      (collectFood c10Eater c10Food).1.energy = min (c10Eater.energy + g.energy) 120 ∧
      (collectFood c10Eater c10Food).1.foodCollected = c10Eater.foodCollected + 1) :=
  ⟨⟨{ x := 1, y := 0, energy := 20 }, by simp [c10Food], by norm_num [inRange, distSq, c10Eater]⟩,
    (collectFood_frame c10Eater c10Food).2
      ⟨{ x := 1, y := 0, energy := 20 }, by simp [c10Food],
        by norm_num [inRange, distSq, c10Eater]⟩⟩
